import Mathlib

/-!
# Ceyear 3622D sweep scripts: command sequencing and the completion poll

A shallow embedding of `src/CSA_Single_Scan.cpp` and `src/Calibration.cpp`.

Both files contain textually identical copies of `sendCommand`, `readResponse`
and `waitForOperationComplete`; they are embedded once.  The two `main`
functions live in the namespaces `CSA_Single_Scan` and `Calibration`.

## Environment

The VISA library and the instrument behind it are an oracle: the k-th call of
`viWrite` reports `o.viWrite k`, the k-th call of `viRead` reports the status
and the pending bytes `o.viRead k`.  The program is sequential and
deterministic, so every behaviour of library and instrument on these programs
is one such family of replies.  Library calls whose result the source discards
(`viSetAttribute`, `viFlush`, `viStatusDesc`, `viClose`) have no oracle entry.

The program state `World` counts the writes and reads made so far and records
every library call and every sleep, in order, in `trace`.  Console output
(`cout`, `cerr`) influences neither control flow nor library calls and is not
recorded.

## Loops

`while (true)` is embedded with a fuel argument: the number of attempts that
are simulated.  `Run.spin` means the loop is still running after that many
attempts; the world returned with it is the state reached so far.
-/

/-! ## Constants -/

/-- From `visa.h`: the status of a successful completion; failures are negative. -/
def VI_SUCCESS : Int := 0

/-- From `visa.h`: buffer mask of `viFlush` naming the read buffer. -/
def VI_READ_BUF : Nat := 1

/-- From `visa.h`. -/
def VI_TRUE : Nat := 1

/-- Source: `#define TIMEOUT 50000`. -/
def TIMEOUT : Nat := 50000

/-- Source: `#define BUFFER_SIZE 2048`. -/
def BUFFER_SIZE : Nat := 2048

/-- The attributes of `visa.h` that the programs set. -/
inductive Attr
  | VI_ATTR_TMO_VALUE
  | VI_ATTR_TERMCHAR_EN
  | VI_ATTR_TERMCHAR
deriving DecidableEq, Repr

/-! ## Strings -/

/-- The bytes of an ASCII string. -/
def bytes (s : String) : List Nat := s.toList.map Char.toNat

/-- The C string held by a `char` array: the bytes before the first zero byte
(`std::string(response)`, `cout << response`). -/
def cstr (buf : List Nat) : List Nat := buf.takeWhile (fun b => b != 0)

/-- Search of `pat` in `s` from offset `i` on: `some` of the first position, or `none`. -/
def findFrom (pat : List Nat) : List Nat → Nat → Option Nat
  | [], i => if pat = [] then some i else none
  | c :: s, i => if pat.isPrefixOf (c :: s) then some i else findFrom pat s (i + 1)

/-- `std::string::find`: position of the first occurrence of `pat` in `s`;
`none` stands for `string::npos`. -/
def find (s pat : List Nat) : Option Nat := findFrom pat s 0

/-- `std::to_string(int)` for a non-negative value. -/
def to_string_int (n : Nat) : String := toString n

/-- `std::to_string(double)` formats with `%f`, six digits after the point.
The doubles of the source (0.5, 3.0, 300) are exact binary fractions with at
most six decimals; a value is given here as a whole number of millionths, for
which `%f` prints the exact decimal expansion. -/
def to_string_double (millionths : Nat) : String :=
  let frac := toString (millionths % 1000000)
  toString (millionths / 1000000) ++ "." ++ String.mk (List.replicate (6 - frac.length) '0') ++ frac

/-! ## Environment and state -/

/-- Replies of the VISA library, by call. -/
structure Oracle where
  /-- Status and session of `viOpenDefaultRM`. -/
  viOpenDefaultRM : Int × Nat
  /-- Status and session of `viOpen`. -/
  viOpen : Int × Nat
  /-- Status of the k-th `viWrite`.  (Its `retCnt` is never inspected.) -/
  viWrite : Nat → Int
  /-- Status of the k-th `viRead` and the bytes pending for it. -/
  viRead : Nat → Int × List Nat
  /-- Indeterminate initial content of an automatic `char` array, by offset. -/
  garbage : Nat → Nat

/-- A library call or a sleep, with its arguments. -/
inductive Event
  | viOpenDefaultRM
  | viOpen (rm : Nat) (rsrc : String)
  | viSetAttribute (vi : Nat) (attr : Attr) (value : Nat)
  | viWrite (vi : Nat) (buf : String)
  | viFlush (vi : Nat) (mask : Nat)
  | viRead (vi : Nat) (count : Nat)
  | viStatusDesc (vi : Nat) (status : Int)
  | viClose (vi : Nat)
  | sleep (ms : Nat)
deriving DecidableEq, Repr

/-- Program state: number of writes and reads made, and the calls made so far. -/
structure World where
  nWrite : Nat
  nRead : Nat
  trace : List Event
deriving DecidableEq, Repr

/-- The state at program start. -/
def World.init : World := ⟨0, 0, []⟩

/-- Appends one event to the trace. -/
def World.log (w : World) (e : Event) : World := { w with trace := w.trace ++ [e] }

/-- Outcome of a run: a returned value, a loop still running when the fuel ran
out, or a store outside an array. -/
inductive Run (α : Type)
  | ret (a : α)
  | spin
  | fault
deriving DecidableEq, Repr

/-! ## Library calls -/

/-- The call `viOpenDefaultRM(&rm)`. -/
def viOpenDefaultRM (o : Oracle) (w : World) : (Int × Nat) × World :=
  (o.viOpenDefaultRM, w.log .viOpenDefaultRM)

/-- The call `viOpen(rm, rsrc, VI_NULL, VI_NULL, &instr)`. -/
def viOpen (o : Oracle) (rm : Nat) (rsrc : String) (w : World) : (Int × Nat) × World :=
  (o.viOpen, w.log (.viOpen rm rsrc))

/-- The call `viSetAttribute(vi, attr, value)`; the source discards its status. -/
def viSetAttribute (vi : Nat) (attr : Attr) (value : Nat) (w : World) : World :=
  w.log (.viSetAttribute vi attr value)

/-- The call `viWrite(vi, buf, count, &retCnt)` with `count` the length of `buf`. -/
def viWrite (o : Oracle) (vi : Nat) (buf : String) (w : World) : Int × World :=
  (o.viWrite w.nWrite, { w with nWrite := w.nWrite + 1, trace := w.trace ++ [.viWrite vi buf] })

/-- The call `viFlush(vi, mask)`; the source discards its status. -/
def viFlush (vi : Nat) (mask : Nat) (w : World) : World :=
  w.log (.viFlush vi mask)

/-- The call `viRead(vi, buf, count, &retCnt)`: the library transfers at most
`count` of the pending bytes to the start of `buf` and reports their number in
`retCnt`.  Returns the status and the bytes transferred. -/
def viRead (o : Oracle) (vi : Nat) (count : Nat) (w : World) : (Int × List Nat) × World :=
  (((o.viRead w.nRead).1, (o.viRead w.nRead).2.take count),
    { w with nRead := w.nRead + 1, trace := w.trace ++ [.viRead vi count] })

/-- The call `viStatusDesc(vi, status, statusMessage)`; the message only goes to `cerr`. -/
def viStatusDesc (vi : Nat) (status : Int) (w : World) : World :=
  w.log (.viStatusDesc vi status)

/-- The call `viClose(vi)`; the source discards its status. -/
def viClose (vi : Nat) (w : World) : World :=
  w.log (.viClose vi)

/-- The call `this_thread::sleep_for` of `ms` milliseconds. -/
def sleep_for (ms : Nat) (w : World) : World :=
  w.log (.sleep ms)

/-- An automatic `char response[n]`: `n` bytes of indeterminate content. -/
def localArray (o : Oracle) (n : Nat) : List Nat := (List.range n).map o.garbage

/-! ## The helper routines (identical in both source files) -/

/-- Source: `sendCommand`. -/
def sendCommand (o : Oracle) (instr : Nat) (command : String) (w : World) : Int × World :=
  let (status, w) := viWrite o instr command w
  let w := if status < VI_SUCCESS then viStatusDesc instr status w else w
  (status, w)

/-- Source: `readResponse`.  Returns the status and the array after the call,
or `none` when the store `response[retCnt] = 0` (or the transfer before it)
falls outside the array. -/
def readResponse (o : Oracle) (instr : Nat) (response : List Nat) (bufferSize : Nat) (w : World) :
    Option (Int × List Nat) × World :=
  let _ := bufferSize
  let w := viFlush instr VI_READ_BUF w
  let ((status, data), w) := viRead o instr 50 w
  let w := if status < VI_SUCCESS then viStatusDesc instr status w else w
  let retCnt := data.length
  if retCnt < response.length then
    (some (status, (data ++ response.drop retCnt).set retCnt 0), w)
  else
    (none, w)

/-- The loop of `waitForOperationComplete`, `fuel` attempts of it, on the array `response`. -/
def waitLoop (o : Oracle) (instr : Nat) : Nat → List Nat → World → Run Int × World
  | 0, _, w => (.spin, w)
  | fuel + 1, response, w =>
    let (_, w) := sendCommand o instr "*OPC?" w
    match readResponse o instr response response.length w with
    | (none, w) => (.fault, w)
    | (some (status, response), w) =>
      if status ≥ VI_SUCCESS ∧ find (cstr response) (bytes "+1") ≠ none then
        (.ret status, w)
      else
        waitLoop o instr fuel response (sleep_for 1000 w)

/-- Source: `waitForOperationComplete`. -/
def waitForOperationComplete (o : Oracle) (instr : Nat) (fuel : Nat) (w : World) :
    Run Int × World :=
  waitLoop o instr fuel (localArray o BUFFER_SIZE) w

/-! ## The two programs -/

/-- Source: the resource string both programs pass to `viOpen`. -/
def resourceName : String := "TCPIP0::172.141.11.202::5025::SOCKET"

namespace CSA_Single_Scan

/-- Source: `main` of `CSA_Single_Scan.cpp`.  `fuel` bounds the attempts of the
completion poll that are simulated. -/
def main (o : Oracle) (fuel : Nat) : Run Int × World :=
  let w := World.init
  let response := localArray o BUFFER_SIZE
  let FREQ_START := 500000        -- 0.5, in millionths
  let FREQ_STOP := 3000000        -- 3.0
  let SWIP_POINTS := 501
  let IFBW := 300000000           -- 300
  let fileName := "cal_1_4"
  let ((status, rm), w) := viOpenDefaultRM o w
  if status < VI_SUCCESS then
    (.ret (-1), w)
  else
  let ((status, instr), w) := viOpen o rm resourceName w
  if status < VI_SUCCESS then
    let w := viClose rm w
    (.ret (-1), w)
  else
  let w := viSetAttribute instr .VI_ATTR_TMO_VALUE TIMEOUT w
  let w := viSetAttribute instr .VI_ATTR_TERMCHAR_EN VI_TRUE w
  let w := viSetAttribute instr .VI_ATTR_TERMCHAR '\n'.toNat w
  let (_, w) := sendCommand o instr "*RST" w
  let w := sleep_for 500 w
  let freqStartCommand := "SENSe1:FREQuency:STARt " ++ to_string_double FREQ_START ++ "e+9\n"
  let (_, w) := sendCommand o instr freqStartCommand w
  let w := sleep_for 500 w
  let freqStopCommand := "SENSe1:FREQuency:STOP " ++ to_string_double FREQ_STOP ++ "e+9\n"
  let (_, w) := sendCommand o instr freqStopCommand w
  let w := sleep_for 500 w
  let sweepPointsCommand := "SENSe1:SWEep:POINts " ++ to_string_int SWIP_POINTS ++ "\n"
  let (_, w) := sendCommand o instr sweepPointsCommand w
  let w := sleep_for 500 w
  let ifbwCommand := "SENSe1:BANDwidth:RESolution " ++ to_string_double IFBW ++ "\n"
  let (_, w) := sendCommand o instr ifbwCommand w
  let w := sleep_for 500 w
  let loadCSACommand := ":MMEMory:LOAD:CSARchive \"" ++ fileName ++ "\""
  let (_, w) := sendCommand o instr loadCSACommand w
  let w := sleep_for 500 w
  let scanModeCommand := ":INITiate:CONTinuous OFF\n"
  let (_, w) := sendCommand o instr scanModeCommand w
  let w := sleep_for 500 w
  let triggerScanCommand := ":INITiate1:IMMediate\n"
  let (_, w) := sendCommand o instr triggerScanCommand w
  let w := sleep_for 500 w
  match waitForOperationComplete o instr fuel w with
  | (.spin, w) => (.spin, w)
  | (.fault, w) => (.fault, w)
  | (.ret _, w) =>
  let (_, w) := sendCommand o instr ":ABORt\n" w
  let w := sleep_for 500 w
  let (_, w) := sendCommand o instr "CALCulate1:MEASure1:DATA? FDATA\n" w
  let w := sleep_for 500 w
  match readResponse o instr response BUFFER_SIZE w with
  | (none, w) => (.fault, w)
  | (some (_, response), w) =>
  let queryFreqStartCommand := "SENSe1:FREQuency:STARt?\n"
  let (_, w) := sendCommand o instr queryFreqStartCommand w
  let w := sleep_for 500 w
  match readResponse o instr response BUFFER_SIZE w with
  | (none, w) => (.fault, w)
  | (some (_, response), w) =>
  let queryFreqStopCommand := "SENSe1:FREQuency:STOP?\n"
  let (_, w) := sendCommand o instr queryFreqStopCommand w
  let w := sleep_for 500 w
  match readResponse o instr response BUFFER_SIZE w with
  | (none, w) => (.fault, w)
  | (some (_, response), w) =>
  let (_, w) := sendCommand o instr "SENSe1:SWEep:POINts?\n" w
  let w := sleep_for 500 w
  match readResponse o instr response BUFFER_SIZE w with
  | (none, w) => (.fault, w)
  | (some (_, response), w) =>
  let (_, w) := sendCommand o instr "SENSe1:BANDwidth:RESolution?\n" w
  let w := sleep_for 500 w
  match readResponse o instr response BUFFER_SIZE w with
  | (none, w) => (.fault, w)
  | (some (_, _), w) =>
  let w := viClose instr w
  let w := viClose rm w
  (.ret 0, w)

end CSA_Single_Scan

namespace Calibration

/-- Source: `main` of `Calibration.cpp`. -/
def main (o : Oracle) : Run Int × World :=
  let w := World.init
  let response := localArray o BUFFER_SIZE
  let FREQ_START := 500000        -- 0.5, in millionths
  let FREQ_STOP := 3000000        -- 3.0
  let SWIP_POINTS := 501
  let IFBW := 300000000           -- 300
  let ((status, rm), w) := viOpenDefaultRM o w
  if status < VI_SUCCESS then
    (.ret (-1), w)
  else
  let ((status, instr), w) := viOpen o rm resourceName w
  if status < VI_SUCCESS then
    let w := viClose rm w
    (.ret (-1), w)
  else
  let w := viSetAttribute instr .VI_ATTR_TMO_VALUE TIMEOUT w
  let w := viSetAttribute instr .VI_ATTR_TERMCHAR_EN VI_TRUE w
  let w := viSetAttribute instr .VI_ATTR_TERMCHAR '\n'.toNat w
  let freqStartCommand := "SENSe1:FREQuency:STARt " ++ to_string_double FREQ_START ++ "e+9\n"
  let (_, w) := sendCommand o instr freqStartCommand w
  let w := sleep_for 500 w
  let freqStopCommand := "SENSe1:FREQuency:STOP " ++ to_string_double FREQ_STOP ++ "e+9\n"
  let (_, w) := sendCommand o instr freqStopCommand w
  let w := sleep_for 500 w
  let sweepPointsCommand := "SENSe1:SWEep:POINts " ++ to_string_int SWIP_POINTS ++ "\n"
  let (_, w) := sendCommand o instr sweepPointsCommand w
  let w := sleep_for 500 w
  let ifbwCommand := "SENSe1:BANDwidth:RESolution " ++ to_string_double IFBW ++ "\n"
  let (_, w) := sendCommand o instr ifbwCommand w
  let w := sleep_for 500 w
  let fileName := "cal_1_4"
  let loadCSACommand := ":MMEMory:LOAD:CSARchive \"" ++ fileName ++ "\""
  let (_, w) := sendCommand o instr loadCSACommand w
  let w := sleep_for 500 w
  let queryFreqStartCommand := "SENSe1:FREQuency:STARt?\n"
  let (_, w) := sendCommand o instr queryFreqStartCommand w
  let w := sleep_for 500 w
  match readResponse o instr response BUFFER_SIZE w with
  | (none, w) => (.fault, w)
  | (some (_, response), w) =>
  let queryFreqStopCommand := "SENSe1:FREQuency:STOP?\n"
  let (_, w) := sendCommand o instr queryFreqStopCommand w
  let w := sleep_for 500 w
  match readResponse o instr response BUFFER_SIZE w with
  | (none, w) => (.fault, w)
  | (some (_, response), w) =>
  let (_, w) := sendCommand o instr "SENSe1:SWEep:POINts?\n" w
  let w := sleep_for 500 w
  match readResponse o instr response BUFFER_SIZE w with
  | (none, w) => (.fault, w)
  | (some (_, response), w) =>
  let (_, w) := sendCommand o instr "SENSe1:BANDwidth:RESolution?\n" w
  let w := sleep_for 500 w
  match readResponse o instr response BUFFER_SIZE w with
  | (none, w) => (.fault, w)
  | (some (_, _), w) =>
  let w := viClose instr w
  let w := viClose rm w
  (.ret 0, w)

end Calibration

/-! ## Projections of a trace -/

/-- The commands written, in order. -/
def writes : List Event → List String
  | [] => []
  | .viWrite _ buf :: t => buf :: writes t
  | _ :: t => writes t

/-- The sessions closed, in order. -/
def closes : List Event → List Nat
  | [] => []
  | .viClose vi :: t => vi :: closes t
  | _ :: t => closes t

/-- What the poller does on the wire and the clock. -/
inductive Act
  | query (cmd : String)
  | read
  | sleep (ms : Nat)
deriving DecidableEq, Repr

/-- The queries, reads and sleeps of a trace, in order. -/
def acts : List Event → List Act
  | [] => []
  | .viWrite _ buf :: t => .query buf :: acts t
  | .viRead _ _ :: t => .read :: acts t
  | .sleep ms :: t => .sleep ms :: acts t
  | _ :: t => acts t

/-! ## What the helper routines do, in closed form -/

/-- The bytes the k-th `viRead` transfers when 50 are requested. -/
def delivered (o : Oracle) (k : Nat) : List Nat := (o.viRead k).2.take 50

/-- The text the program sees after the k-th read: the transferred bytes up to
their first zero byte. -/
def responseText (o : Oracle) (k : Nat) : List Nat := cstr (delivered o k)

/-- The array after the transfer of `data` to its start and the store of the terminator. -/
def stored (data response : List Nat) : List Nat :=
  (data ++ response.drop data.length).set data.length 0

/-- The error report of a failed call: one `viStatusDesc` when the status is negative. -/
def descEvents (vi : Nat) (status : Int) : List Event :=
  if status < VI_SUCCESS then [.viStatusDesc vi status] else []

/-- Events of one `sendCommand`, the `iW`-th write. -/
def cmdEvents (o : Oracle) (instr : Nat) (cmd : String) (iW : Nat) : List Event :=
  .viWrite instr cmd :: descEvents instr (o.viWrite iW)

/-- Events of one `readResponse`, the `iR`-th read. -/
def readEvents (o : Oracle) (instr : Nat) (iR : Nat) : List Event :=
  [.viFlush instr VI_READ_BUF, .viRead instr 50] ++ descEvents instr (o.viRead iR).1

/-- Events of `k` unsuccessful attempts of the poll, from write `iW` and read `iR` on. -/
def pollEvents (o : Oracle) (instr : Nat) (iW iR : Nat) : Nat → List Event
  | 0 => []
  | k + 1 =>
    cmdEvents o instr "*OPC?" iW ++ readEvents o instr iR ++ [.sleep 1000]
      ++ pollEvents o instr (iW + 1) (iR + 1) k

/-- The k-th read ends the poll: its status is not negative and its text contains `+1`. -/
def Done (o : Oracle) (k : Nat) : Prop :=
  0 ≤ (o.viRead k).1 ∧ bytes "+1" <:+: responseText o k

instance (o : Oracle) (k : Nat) : Decidable (Done o k) :=
  inferInstanceAs (Decidable (0 ≤ (o.viRead k).1 ∧ bytes "+1" <:+: responseText o k))

/-- Events of a `sendCommand` followed by the 500 ms sleep of `main`. -/
def cmdSleep (o : Oracle) (instr : Nat) (cmd : String) (iW : Nat) : List Event :=
  cmdEvents o instr cmd iW ++ [.sleep 500]

/-- Events of a query of `main`: command, 500 ms sleep, `readResponse`. -/
def queryEvents (o : Oracle) (instr : Nat) (cmd : String) (iW iR : Nat) : List Event :=
  cmdEvents o instr cmd iW ++ [.sleep 500] ++ readEvents o instr iR

/-- Events of the three `viSetAttribute` calls of `main`. -/
def attrEvents (instr : Nat) : List Event :=
  [.viSetAttribute instr .VI_ATTR_TMO_VALUE 50000, .viSetAttribute instr .VI_ATTR_TERMCHAR_EN 1,
    .viSetAttribute instr .VI_ATTR_TERMCHAR 10]

/-- The command that sets the start frequency. -/
def cmdFreqStart : String := "SENSe1:FREQuency:STARt 0.500000e+9\n"

/-- The command that sets the stop frequency. -/
def cmdFreqStop : String := "SENSe1:FREQuency:STOP 3.000000e+9\n"

/-- The command that sets the number of sweep points. -/
def cmdPoints : String := "SENSe1:SWEep:POINts 501\n"

/-- The command that sets the IF bandwidth. -/
def cmdBandwidth : String := "SENSe1:BANDwidth:RESolution 300.000000\n"

/-- The command that loads the calibration archive. -/
def cmdLoad : String := ":MMEMory:LOAD:CSARchive \"cal_1_4\""

/-- The command that switches continuous sweeping off. -/
def cmdContOff : String := ":INITiate:CONTinuous OFF\n"

/-- The sweep trigger. -/
def cmdTrigger : String := ":INITiate1:IMMediate\n"

/-- The completion query. -/
def cmdOpc : String := "*OPC?"

/-- The abort command. -/
def cmdAbort : String := ":ABORt\n"

/-- The data query. -/
def cmdData : String := "CALCulate1:MEASure1:DATA? FDATA\n"

/-- The four configuration read-back queries. -/
def readBack : List String :=
  ["SENSe1:FREQuency:STARt?\n", "SENSe1:FREQuency:STOP?\n", "SENSe1:SWEep:POINts?\n",
    "SENSe1:BANDwidth:RESolution?\n"]

namespace CSA_Single_Scan

/-- Events of `main` between the two opens and the call of the poller. -/
def configTrace (o : Oracle) : List Event :=
  attrEvents o.viOpen.2
    ++ cmdSleep o o.viOpen.2 "*RST" 0 ++ cmdSleep o o.viOpen.2 cmdFreqStart 1
    ++ cmdSleep o o.viOpen.2 cmdFreqStop 2 ++ cmdSleep o o.viOpen.2 cmdPoints 3
    ++ cmdSleep o o.viOpen.2 cmdBandwidth 4 ++ cmdSleep o o.viOpen.2 cmdLoad 5
    ++ cmdSleep o o.viOpen.2 cmdContOff 6 ++ cmdSleep o o.viOpen.2 cmdTrigger 7

/-- Events of `main` from program start up to the call of the poller, both opens successful. -/
def setupTrace (o : Oracle) : List Event :=
  [.viOpenDefaultRM, .viOpen o.viOpenDefaultRM.2 resourceName] ++ configTrace o

/-- Events of `main` between the return of the poller, at its attempt `k + 1`, and the closes. -/
def finishTrace (o : Oracle) (k : Nat) : List Event :=
  cmdSleep o o.viOpen.2 cmdAbort (9 + k)
    ++ queryEvents o o.viOpen.2 cmdData (10 + k) (k + 1)
    ++ queryEvents o o.viOpen.2 "SENSe1:FREQuency:STARt?\n" (11 + k) (k + 2)
    ++ queryEvents o o.viOpen.2 "SENSe1:FREQuency:STOP?\n" (12 + k) (k + 3)
    ++ queryEvents o o.viOpen.2 "SENSe1:SWEep:POINts?\n" (13 + k) (k + 4)
    ++ queryEvents o o.viOpen.2 "SENSe1:BANDwidth:RESolution?\n" (14 + k) (k + 5)

/-- Events of a run of `main` whose poll ends at attempt `k + 1`. -/
def fullTrace (o : Oracle) (k : Nat) : List Event :=
  setupTrace o ++ pollEvents o o.viOpen.2 8 0 k ++ cmdEvents o o.viOpen.2 "*OPC?" (8 + k)
    ++ readEvents o o.viOpen.2 k ++ finishTrace o k
    ++ [.viClose o.viOpen.2, .viClose o.viOpenDefaultRM.2]

end CSA_Single_Scan

namespace Calibration

/-- Events of a run of `main` between the two opens and the two closes. -/
def bodyTrace (o : Oracle) : List Event :=
  attrEvents o.viOpen.2
    ++ cmdSleep o o.viOpen.2 cmdFreqStart 0 ++ cmdSleep o o.viOpen.2 cmdFreqStop 1
    ++ cmdSleep o o.viOpen.2 cmdPoints 2 ++ cmdSleep o o.viOpen.2 cmdBandwidth 3
    ++ cmdSleep o o.viOpen.2 cmdLoad 4
    ++ queryEvents o o.viOpen.2 "SENSe1:FREQuency:STARt?\n" 5 0
    ++ queryEvents o o.viOpen.2 "SENSe1:FREQuency:STOP?\n" 6 1
    ++ queryEvents o o.viOpen.2 "SENSe1:SWEep:POINts?\n" 7 2
    ++ queryEvents o o.viOpen.2 "SENSe1:BANDwidth:RESolution?\n" 8 3

/-- Events of a run of `main` with both opens successful. -/
def fullTrace (o : Oracle) : List Event :=
  [.viOpenDefaultRM, .viOpen o.viOpenDefaultRM.2 resourceName] ++ bodyTrace o
    ++ [.viClose o.viOpen.2, .viClose o.viOpenDefaultRM.2]

end Calibration

namespace CSA_Single_Scan

/-- The commands `main` writes before it calls the poller. -/
def commandsBefore : List String :=
  ["*RST", cmdFreqStart, cmdFreqStop, cmdPoints, cmdBandwidth, cmdLoad, cmdContOff, cmdTrigger]

/-- The commands `main` writes after the poller has returned. -/
def commandsAfter : List String := cmdAbort :: cmdData :: readBack

/-- The commands of a run of `main` that polls `n` times. -/
def commands (n : Nat) : List String :=
  commandsBefore ++ List.replicate n cmdOpc ++ commandsAfter

end CSA_Single_Scan

namespace Calibration

/-- The commands of a run of `main`. -/
def commands : List String :=
  [cmdFreqStart, cmdFreqStop, cmdPoints, cmdBandwidth, cmdLoad] ++ readBack

end Calibration

/-- The commands that only `CSA_Single_Scan` writes: reset, the two `:INITiate` commands, the
completion query, the abort and the data query. -/
def csaOnly : List String := ["*RST", cmdContOff, cmdTrigger, cmdOpc, cmdAbort, cmdData]

/-- Event `e` is a use of the open session `vi` (or a sleep): no open and no close. -/
def sessionUse (vi : Nat) : Event → Bool
  | .viSetAttribute v _ _ => v == vi
  | .viWrite v _ => v == vi
  | .viFlush v _ => v == vi
  | .viRead v _ => v == vi
  | .viStatusDesc v _ => v == vi
  | .sleep _ => true
  | _ => false

/-- The life cycle of the two handles in a finished trace `t`, by outcome of the two opens:
the resource manager fails to open and nothing else happens; or it opens, the device does not,
and the resource manager is closed; or both open, the trace goes on with uses of the device
session only and ends with the close of the device session and of the resource manager. -/
def Lifecycle (o : Oracle) (t : List Event) : Prop :=
  (o.viOpenDefaultRM.1 < 0 → t = [.viOpenDefaultRM]) ∧
  (0 ≤ o.viOpenDefaultRM.1 → o.viOpen.1 < 0 →
    t = [.viOpenDefaultRM, .viOpen o.viOpenDefaultRM.2 resourceName,
      .viClose o.viOpenDefaultRM.2]) ∧
  (0 ≤ o.viOpenDefaultRM.1 → 0 ≤ o.viOpen.1 →
    ∃ body, t = .viOpenDefaultRM :: .viOpen o.viOpenDefaultRM.2 resourceName ::
        (body ++ [.viClose o.viOpen.2, .viClose o.viOpenDefaultRM.2]) ∧
      ∀ e ∈ body, sessionUse o.viOpen.2 e = true)

/-- The handles successfully opened by `main`, in the order of their opening. -/
def opened (o : Oracle) : List Nat :=
  if o.viOpenDefaultRM.1 < 0 then []
  else if o.viOpen.1 < 0 then [o.viOpenDefaultRM.2]
  else [o.viOpenDefaultRM.2, o.viOpen.2]

/-- The number of `viOpen` calls in a trace. -/
def deviceOpens : List Event → Nat
  | [] => 0
  | .viOpen _ _ :: t => deviceOpens t + 1
  | _ :: t => deviceOpens t

/-! ## Example oracles -/

/-- Every call succeeds; every read delivers the text `+1` and a newline. -/
def oGood : Oracle := ⟨(0, 11), (0, 22), fun _ => 0, fun _ => (0, bytes "+1\n"), fun _ => 0⟩

/-- As `oGood`, but the first read reports the error status -1 while delivering `+1`. -/
def oLate : Oracle :=
  ⟨(0, 11), (0, 22), fun _ => 0, fun k => (if k = 0 then -1 else 0, bytes "+1\n"), fun _ => 0⟩

/-- Every write reports the error status -1; every read succeeds and delivers `+1`. -/
def oWriteFail : Oracle :=
  ⟨(0, 11), (0, 22), fun _ => -1, fun _ => (0, bytes "+1\n"), fun _ => 0⟩

/-- Every read reports the error status -1 while delivering `+1`. -/
def oReadFail : Oracle :=
  ⟨(0, 11), (0, 22), fun _ => 0, fun _ => (-1, bytes "+1\n"), fun _ => 0⟩

/-- The resource manager cannot be opened. -/
def oNoRM : Oracle := ⟨(-1, 0), (0, 22), fun _ => 0, fun _ => (0, bytes "+1\n"), fun _ => 0⟩

/-- The device session cannot be opened. -/
def oNoDevice : Oracle := ⟨(0, 11), (-1, 0), fun _ => 0, fun _ => (0, bytes "+1\n"), fun _ => 0⟩

/-- Every read delivers the three bytes `+`, zero, `1`. -/
def oNul : Oracle := ⟨(0, 11), (0, 22), fun _ => 0, fun _ => (0, [43, 0, 49]), fun _ => 0⟩

/-! ## Lemmas on strings and arrays -/

theorem findFrom_ne_none_iff (pat : List Nat) :
    ∀ (s : List Nat) (i : Nat), findFrom pat s i ≠ none ↔ pat <:+: s := by
  intro s
  induction s with
  | nil =>
    intro i
    by_cases h : pat = []
    · simp [findFrom, h]
    · simp [findFrom, h]
  | cons c s ih =>
    intro i
    rw [findFrom, List.infix_cons_iff]
    by_cases h : pat.isPrefixOf (c :: s) = true
    · simp only [h, if_true]
      have := List.isPrefixOf_iff_prefix.mp h
      simp [this]
    · simp only [h]
      have hp : ¬ pat <+: c :: s := fun hp => h (List.isPrefixOf_iff_prefix.mpr hp)
      simp only [Bool.false_eq_true, if_false, hp, false_or]
      exact ih (i + 1)

theorem find_ne_none_iff (s pat : List Nat) : find s pat ≠ none ↔ pat <:+: s :=
  findFrom_ne_none_iff pat s 0

theorem cstr_append_zero (data rest : List Nat) : cstr (data ++ 0 :: rest) = cstr data := by
  induction data with
  | nil => simp [cstr]
  | cons d ds ih =>
    simp only [cstr, List.cons_append] at ih ⊢
    by_cases hd : d = 0
    · simp [hd]
    · simp [hd, ih]

theorem stored_eq (data response : List Nat) (h : data.length < response.length) :
    stored data response = data ++ 0 :: response.drop (data.length + 1) := by
  unfold stored
  rw [List.set_append]
  simp only [lt_self_iff_false, if_false, Nat.sub_self]
  have : response.drop data.length ≠ [] := by
    intro hnil
    have := congrArg List.length hnil
    simp at this
    omega
  cases hr : response.drop data.length with
  | nil => exact absurd hr this
  | cons x xs =>
    have hx : xs = response.drop (data.length + 1) := by
      have := congrArg List.tail hr
      simpa using this.symm
    simp [hx]

theorem cstr_stored (data response : List Nat) (h : data.length < response.length) :
    cstr (stored data response) = cstr data := by
  rw [stored_eq data response h, cstr_append_zero]

theorem length_stored (data response : List Nat) (h : data.length ≤ response.length) :
    (stored data response).length = response.length := by
  unfold stored
  simp
  omega

theorem length_delivered (o : Oracle) (k : Nat) : (delivered o k).length ≤ 50 := by
  unfold delivered
  simp

theorem length_localArray (o : Oracle) (n : Nat) : (localArray o n).length = n := by
  simp [localArray]

/-! ## The helper routines in closed form -/

theorem sendCommand_eq (o : Oracle) (instr : Nat) (cmd : String) (w : World) :
    sendCommand o instr cmd w =
      (o.viWrite w.nWrite,
        ⟨w.nWrite + 1, w.nRead, w.trace ++ cmdEvents o instr cmd w.nWrite⟩) := by
  unfold sendCommand viWrite cmdEvents descEvents viStatusDesc World.log
  by_cases h : o.viWrite w.nWrite < VI_SUCCESS
  · simp [h]
  · simp [h]

theorem readResponse_world (o : Oracle) (instr : Nat) (response : List Nat) (bufferSize : Nat)
    (w : World) :
    (readResponse o instr response bufferSize w).2 =
      ⟨w.nWrite, w.nRead + 1, w.trace ++ readEvents o instr w.nRead⟩ := by
  simp only [readResponse, viRead, viFlush, readEvents, descEvents, viStatusDesc, World.log]
  split_ifs <;> simp

theorem readResponse_value (o : Oracle) (instr : Nat) (response : List Nat) (bufferSize : Nat)
    (w : World) :
    (readResponse o instr response bufferSize w).1 =
      if (delivered o w.nRead).length < response.length then
        some ((o.viRead w.nRead).1, stored (delivered o w.nRead) response)
      else none := by
  simp only [readResponse, viRead, viFlush, viStatusDesc, World.log, delivered, stored]
  split_ifs <;> rfl

theorem readResponse_eq (o : Oracle) (instr : Nat) (response : List Nat) (bufferSize : Nat)
    (w : World) (h : 51 ≤ response.length) :
    readResponse o instr response bufferSize w =
      (some ((o.viRead w.nRead).1, stored (delivered o w.nRead) response),
        ⟨w.nWrite, w.nRead + 1, w.trace ++ readEvents o instr w.nRead⟩) := by
  have hl : (delivered o w.nRead).length < response.length :=
    lt_of_le_of_lt (length_delivered o w.nRead) h
  apply Prod.ext
  · rw [readResponse_value]
    simp [hl]
  · rw [readResponse_world]

theorem waitLoop_step (o : Oracle) (instr : Nat) (fuel : Nat) (response : List Nat) (w : World)
    (h : 51 ≤ response.length) :
    waitLoop o instr (fuel + 1) response w =
      if Done o w.nRead then
        (.ret (o.viRead w.nRead).1,
          ⟨w.nWrite + 1, w.nRead + 1,
            w.trace ++ cmdEvents o instr "*OPC?" w.nWrite ++ readEvents o instr w.nRead⟩)
      else
        waitLoop o instr fuel (stored (delivered o w.nRead) response)
          ⟨w.nWrite + 1, w.nRead + 1,
            w.trace ++ cmdEvents o instr "*OPC?" w.nWrite ++ readEvents o instr w.nRead
              ++ [.sleep 1000]⟩ := by
  have hl : (delivered o w.nRead).length < response.length :=
    lt_of_le_of_lt (length_delivered o w.nRead) h
  rw [waitLoop]
  simp only [sendCommand_eq]
  rw [readResponse_eq _ _ _ _ _ h]
  simp only [cstr_stored _ _ hl, find_ne_none_iff, sleep_for, World.log, VI_SUCCESS, ge_iff_le]
  by_cases hD : Done o w.nRead
  · rw [if_pos hD, if_pos (by simpa [Done, responseText] using hD)]
  · rw [if_neg hD, if_neg (by simpa [Done, responseText] using hD)]

theorem waitLoop_spin (o : Oracle) (instr : Nat) :
    ∀ (fuel : Nat) (response : List Nat) (w : World), 51 ≤ response.length →
      (∀ j, j < fuel → ¬ Done o (w.nRead + j)) →
      waitLoop o instr fuel response w =
        (.spin, ⟨w.nWrite + fuel, w.nRead + fuel,
          w.trace ++ pollEvents o instr w.nWrite w.nRead fuel⟩) := by
  intro fuel
  induction fuel with
  | zero =>
    intro response w _ _
    simp [waitLoop, pollEvents]
  | succ n ih =>
    intro response w h hno
    have h0 : ¬ Done o w.nRead := by simpa using hno 0 (Nat.succ_pos n)
    rw [waitLoop_step o instr n response w h, if_neg h0]
    have hl : (delivered o w.nRead).length ≤ response.length :=
      le_trans (length_delivered o w.nRead) (by omega)
    rw [ih _ _ (by rw [length_stored _ _ hl]; exact h)
      (by
        intro j hj
        have := hno (j + 1) (by omega)
        simpa [Nat.add_assoc, Nat.add_comm 1 j] using this)]
    simp [pollEvents, Nat.add_assoc, Nat.add_comm 1 n]

theorem waitLoop_ret (o : Oracle) (instr : Nat) :
    ∀ (k fuel : Nat) (response : List Nat) (w : World), 51 ≤ response.length →
      (∀ j, j < k → ¬ Done o (w.nRead + j)) → Done o (w.nRead + k) → k < fuel →
      waitLoop o instr fuel response w =
        (.ret (o.viRead (w.nRead + k)).1, ⟨w.nWrite + k + 1, w.nRead + k + 1,
          w.trace ++ pollEvents o instr w.nWrite w.nRead k
            ++ cmdEvents o instr "*OPC?" (w.nWrite + k) ++ readEvents o instr (w.nRead + k)⟩) := by
  intro k
  induction k with
  | zero =>
    intro fuel response w h _ hd hf
    obtain ⟨n, rfl⟩ : ∃ n, fuel = n + 1 := ⟨fuel - 1, by omega⟩
    rw [waitLoop_step o instr n response w h, if_pos (by simpa using hd)]
    simp [pollEvents]
  | succ k ih =>
    intro fuel response w h hno hd hf
    obtain ⟨n, rfl⟩ : ∃ n, fuel = n + 1 := ⟨fuel - 1, by omega⟩
    have h0 : ¬ Done o w.nRead := by simpa using hno 0 (Nat.succ_pos k)
    rw [waitLoop_step o instr n response w h, if_neg h0]
    have hl : (delivered o w.nRead).length ≤ response.length :=
      le_trans (length_delivered o w.nRead) (by omega)
    rw [ih n _ _ (by rw [length_stored _ _ hl]; exact h)
      (by
        intro j hj
        have := hno (j + 1) (by omega)
        simpa [Nat.add_assoc, Nat.add_comm 1 j] using this)
      (by simpa [Nat.add_assoc, Nat.add_comm 1 k] using hd)
      (by omega)]
    simp [pollEvents, Nat.add_assoc, Nat.add_comm 1 k]

theorem length_stored_max (data response : List Nat) :
    (stored data response).length = max data.length response.length := by
  unfold stored
  simp
  omega

theorem waitForOperationComplete_spin (o : Oracle) (instr fuel : Nat) (w : World)
    (hno : ∀ j, j < fuel → ¬ Done o (w.nRead + j)) :
    waitForOperationComplete o instr fuel w =
      (.spin, ⟨w.nWrite + fuel, w.nRead + fuel,
        w.trace ++ pollEvents o instr w.nWrite w.nRead fuel⟩) :=
  waitLoop_spin o instr fuel _ w (by rw [length_localArray]; decide) hno

theorem waitForOperationComplete_ret (o : Oracle) (instr k fuel : Nat) (w : World)
    (hno : ∀ j, j < k → ¬ Done o (w.nRead + j)) (hd : Done o (w.nRead + k)) (hf : k < fuel) :
    waitForOperationComplete o instr fuel w =
      (.ret (o.viRead (w.nRead + k)).1, ⟨w.nWrite + k + 1, w.nRead + k + 1,
        w.trace ++ pollEvents o instr w.nWrite w.nRead k
          ++ cmdEvents o instr "*OPC?" (w.nWrite + k) ++ readEvents o instr (w.nRead + k)⟩) :=
  waitLoop_ret o instr k fuel _ w (by rw [length_localArray]; decide) hno hd hf

/-! ## The two programs in closed form -/

theorem cmd_strings :
    "SENSe1:FREQuency:STARt " ++ to_string_double 500000 ++ "e+9\n" = cmdFreqStart ∧
    "SENSe1:FREQuency:STOP " ++ to_string_double 3000000 ++ "e+9\n" = cmdFreqStop ∧
    "SENSe1:SWEep:POINts " ++ to_string_int 501 ++ "\n" = cmdPoints ∧
    "SENSe1:BANDwidth:RESolution " ++ to_string_double 300000000 ++ "\n" = cmdBandwidth ∧
    ":MMEMory:LOAD:CSARchive \"" ++ "cal_1_4" ++ "\"" = cmdLoad := by
  decide

namespace CSA_Single_Scan

theorem csa_rm_failed (o : Oracle) (fuel : Nat) (h : o.viOpenDefaultRM.1 < 0) :
    main o fuel = (.ret (-1), ⟨0, 0, [.viOpenDefaultRM]⟩) := by
  simp [main, viOpenDefaultRM, VI_SUCCESS, h, World.log, World.init]

theorem csa_open_failed (o : Oracle) (fuel : Nat) (h : 0 ≤ o.viOpenDefaultRM.1)
    (h' : o.viOpen.1 < 0) :
    main o fuel = (.ret (-1), ⟨0, 0, [.viOpenDefaultRM,
      .viOpen o.viOpenDefaultRM.2 resourceName, .viClose o.viOpenDefaultRM.2]⟩) := by
  simp [main, viOpenDefaultRM, viOpen, viClose, VI_SUCCESS, h, h', World.log, World.init,
    not_lt.mpr h]

set_option maxRecDepth 100000 in
theorem csa_spin (o : Oracle) (fuel : Nat) (h : 0 ≤ o.viOpenDefaultRM.1)
    (h' : 0 ≤ o.viOpen.1) (hno : ∀ j, j < fuel → ¬ Done o j) :
    main o fuel =
      (.spin, ⟨8 + fuel, fuel, setupTrace o ++ pollEvents o o.viOpen.2 8 0 fuel⟩) := by
  unfold main
  simp only [viOpenDefaultRM, viOpen, VI_SUCCESS, not_lt.mpr h, not_lt.mpr h', if_false,
    viSetAttribute, sendCommand_eq, sleep_for, World.log, World.init, cmd_strings]
  rw [waitForOperationComplete_spin o _ fuel _ (by simpa using hno)]
  simp [setupTrace, configTrace, cmdSleep, attrEvents, TIMEOUT, VI_TRUE, cmdContOff, cmdTrigger]

set_option maxRecDepth 100000 in
theorem csa_ret (o : Oracle) (k fuel : Nat) (h : 0 ≤ o.viOpenDefaultRM.1)
    (h' : 0 ≤ o.viOpen.1) (hno : ∀ j, j < k → ¬ Done o j) (hd : Done o k) (hf : k < fuel) :
    main o fuel = (.ret 0, ⟨15 + k, 6 + k, fullTrace o k⟩) := by
  unfold main
  simp only [viOpenDefaultRM, viOpen, VI_SUCCESS, not_lt.mpr h, not_lt.mpr h', if_false,
    viSetAttribute, sendCommand_eq, sleep_for, World.log, World.init, cmd_strings]
  rw [waitForOperationComplete_ret o _ k fuel _ (by simpa using hno) (by simpa using hd) hf]
  simp only [readResponse_eq, length_stored_max, length_localArray, BUFFER_SIZE, le_max_iff,
    Nat.reduceLeDiff, or_true, viClose, World.log]
  have e1 : 8 + k + 1 = 9 + k := by omega
  have e2 : 9 + k + 1 = 10 + k := by omega
  have e3 : 10 + k + 1 = 11 + k := by omega
  have e4 : 11 + k + 1 = 12 + k := by omega
  have e5 : 12 + k + 1 = 13 + k := by omega
  have e6 : 13 + k + 1 = 14 + k := by omega
  have e7 : 14 + k + 1 = 15 + k := by omega
  have f2 : k + 1 + 1 = k + 2 := by omega
  have f3 : k + 2 + 1 = k + 3 := by omega
  have f4 : k + 3 + 1 = k + 4 := by omega
  have f5 : k + 4 + 1 = k + 5 := by omega
  have f6 : k + 5 + 1 = 6 + k := by omega
  simp only [Nat.zero_add, Nat.reduceAdd, e1, e2, e3, e4, e5, e6, e7, f2, f3, f4, f5, f6]
  simp [fullTrace, setupTrace, configTrace, finishTrace, cmdSleep, queryEvents, attrEvents,
    TIMEOUT, VI_TRUE, cmdContOff, cmdTrigger, cmdAbort, cmdData]

end CSA_Single_Scan

namespace Calibration

theorem cal_rm_failed (o : Oracle) (h : o.viOpenDefaultRM.1 < 0) :
    main o = (.ret (-1), ⟨0, 0, [.viOpenDefaultRM]⟩) := by
  simp [main, viOpenDefaultRM, VI_SUCCESS, h, World.log, World.init]

theorem cal_open_failed (o : Oracle) (h : 0 ≤ o.viOpenDefaultRM.1) (h' : o.viOpen.1 < 0) :
    main o = (.ret (-1), ⟨0, 0, [.viOpenDefaultRM,
      .viOpen o.viOpenDefaultRM.2 resourceName, .viClose o.viOpenDefaultRM.2]⟩) := by
  simp [main, viOpenDefaultRM, viOpen, viClose, VI_SUCCESS, h, h', World.log, World.init,
    not_lt.mpr h]

set_option maxRecDepth 100000 in
theorem cal_ret (o : Oracle) (h : 0 ≤ o.viOpenDefaultRM.1) (h' : 0 ≤ o.viOpen.1) :
    main o = (.ret 0, ⟨9, 4, fullTrace o⟩) := by
  unfold main
  simp only [viOpenDefaultRM, viOpen, VI_SUCCESS, not_lt.mpr h, not_lt.mpr h', if_false,
    viSetAttribute, sendCommand_eq, sleep_for, World.log, World.init, cmd_strings]
  simp only [readResponse_eq, length_stored_max, length_localArray, BUFFER_SIZE, le_max_iff,
    Nat.reduceLeDiff, or_true, viClose, World.log]
  simp [fullTrace, bodyTrace, cmdSleep, queryEvents, attrEvents, TIMEOUT, VI_TRUE]

end Calibration

/-! ## Projections of the closed forms -/

theorem writes_append (s t : List Event) : writes (s ++ t) = writes s ++ writes t := by
  induction s with
  | nil => rfl
  | cons e s ih => cases e <;> simp [writes, ih]

theorem closes_append (s t : List Event) : closes (s ++ t) = closes s ++ closes t := by
  induction s with
  | nil => rfl
  | cons e s ih => cases e <;> simp [closes, ih]

theorem acts_append (s t : List Event) : acts (s ++ t) = acts s ++ acts t := by
  induction s with
  | nil => rfl
  | cons e s ih => cases e <;> simp [acts, ih]

theorem writes_descEvents (vi : Nat) (st : Int) : writes (descEvents vi st) = [] := by
  unfold descEvents
  split_ifs <;> rfl

theorem acts_descEvents (vi : Nat) (st : Int) : acts (descEvents vi st) = [] := by
  unfold descEvents
  split_ifs <;> rfl

theorem writes_cmdEvents (o : Oracle) (instr : Nat) (cmd : String) (iW : Nat) :
    writes (cmdEvents o instr cmd iW) = [cmd] := by
  simp [cmdEvents, writes, writes_descEvents]

theorem acts_cmdEvents (o : Oracle) (instr : Nat) (cmd : String) (iW : Nat) :
    acts (cmdEvents o instr cmd iW) = [.query cmd] := by
  simp [cmdEvents, acts, acts_descEvents]

theorem writes_readEvents (o : Oracle) (instr : Nat) (iR : Nat) :
    writes (readEvents o instr iR) = [] := by
  simp [readEvents, writes, writes_descEvents]

theorem acts_readEvents (o : Oracle) (instr : Nat) (iR : Nat) :
    acts (readEvents o instr iR) = [.read] := by
  simp [readEvents, acts, acts_descEvents]

theorem writes_cmdSleep (o : Oracle) (instr : Nat) (cmd : String) (iW : Nat) :
    writes (cmdSleep o instr cmd iW) = [cmd] := by
  simp [cmdSleep, writes_append, writes_cmdEvents, writes, writes_descEvents]

theorem writes_queryEvents (o : Oracle) (instr : Nat) (cmd : String) (iW iR : Nat) :
    writes (queryEvents o instr cmd iW iR) = [cmd] := by
  simp [queryEvents, writes_append, writes_cmdEvents, writes_readEvents, writes, writes_descEvents]

theorem writes_attrEvents (instr : Nat) : writes (attrEvents instr) = [] := rfl

theorem writes_pollEvents (o : Oracle) (instr : Nat) :
    ∀ (k iW iR : Nat), writes (pollEvents o instr iW iR k) = List.replicate k cmdOpc := by
  intro k
  induction k with
  | zero => intro _ _; rfl
  | succ k ih =>
    intro iW iR
    simp [pollEvents, writes_append, writes_cmdEvents, writes_readEvents, writes, ih,
      List.replicate_succ, cmdOpc, writes_descEvents]

theorem acts_pollEvents (o : Oracle) (instr : Nat) :
    ∀ (k iW iR : Nat), acts (pollEvents o instr iW iR k) =
      (List.replicate k [Act.query cmdOpc, Act.read, Act.sleep 1000]).flatten := by
  intro k
  induction k with
  | zero => intro _ _; rfl
  | succ k ih =>
    intro iW iR
    simp [pollEvents, acts_append, acts_cmdEvents, acts_readEvents, acts, ih,
      List.replicate_succ, cmdOpc, acts_descEvents]

/-! ## Which attempt ends the poll -/

theorem poll_cases (o : Oracle) (base fuel : Nat) :
    (∃ k, k < fuel ∧ Done o (base + k) ∧ ∀ j, j < k → ¬ Done o (base + j)) ∨
      (∀ j, j < fuel → ¬ Done o (base + j)) := by
  induction fuel with
  | zero => right; intro j hj; omega
  | succ n ih =>
    rcases ih with ⟨k, hk, hd, hno⟩ | hno
    · exact Or.inl ⟨k, by omega, hd, hno⟩
    · by_cases hd : Done o (base + n)
      · exact Or.inl ⟨n, by omega, hd, hno⟩
      · right
        intro j hj
        rcases Nat.lt_succ_iff_lt_or_eq.mp hj with h | h
        · exact hno j h
        · rw [h]; exact hd

/-! ## C1, C2: when the poll returns -/

/-- C1 (as stated, refuted): under `oLate` the first reply already contains `+1`, yet
`waitForOperationComplete` has not returned after its first attempt; it returns at the second. -/
theorem C1_counterexample :
    bytes "+1" <:+: responseText oLate 0 ∧
      (waitForOperationComplete oLate 22 1 World.init).1 = .spin ∧
      (waitForOperationComplete oLate 22 2 World.init).1 = .ret 0 ∧
      (waitForOperationComplete oLate 22 2 World.init).2.nRead = 2 := by
  have h0 : ¬ Done oLate 0 := by decide
  have h1 : Done oLate 1 := by decide
  refine ⟨by decide, ?_, ?_, ?_⟩
  · rw [waitForOperationComplete_spin oLate 22 1 World.init
      (by intro j hj; interval_cases j; exact h0)]
  · rw [waitForOperationComplete_ret oLate 22 1 2 World.init
      (by intro j hj; interval_cases j; exact h0) h1 (by decide)]
    rfl
  · rw [waitForOperationComplete_ret oLate 22 1 2 World.init
      (by intro j hj; interval_cases j; exact h0) h1 (by decide)]
    rfl

/-- C1 (amended): `waitForOperationComplete` returns exactly at the first attempt whose read
reports a non-negative status and whose response text contains `+1`.  If that is attempt
`k + 1` (counted from the entry of the function), then after any `fuel ≤ k` attempts the loop is
still running, and with more than `k` attempts allowed it returns the status of that read
having made exactly `k + 1` queries and `k + 1` reads. -/
theorem C1_returns_at_first_done (o : Oracle) (instr : Nat) (w : World) (k : Nat)
    (hd : Done o (w.nRead + k)) (hno : ∀ j, j < k → ¬ Done o (w.nRead + j)) :
    (∀ fuel, fuel ≤ k → (waitForOperationComplete o instr fuel w).1 = .spin) ∧
      (∀ fuel, k < fuel →
        (waitForOperationComplete o instr fuel w).1 = .ret (o.viRead (w.nRead + k)).1 ∧
        (waitForOperationComplete o instr fuel w).2.nRead = w.nRead + k + 1 ∧
        (waitForOperationComplete o instr fuel w).2.nWrite = w.nWrite + k + 1) := by
  constructor
  · intro fuel hf
    rw [waitForOperationComplete_spin o instr fuel w (fun j hj => hno j (by omega))]
  · intro fuel hf
    rw [waitForOperationComplete_ret o instr k fuel w hno hd hf]
    exact ⟨rfl, rfl, rfl⟩

/-- Witness of C1 (amended): under `oLate` the second attempt is the first successful one. -/
theorem C1_returns_at_first_done_witness :
    Done oLate 1 ∧ (waitForOperationComplete oLate 22 2 World.init).2.nRead = 2 :=
  ⟨by decide,
    ((C1_returns_at_first_done oLate 22 World.init 1 (by decide)
      (by intro j hj; interval_cases j; decide)).2 2 (by decide)).2.1⟩

/-- C2 (as stated, refuted): under `oWriteFail` every write of the completion query reports a
negative status, yet `waitForOperationComplete` returns at its first attempt. -/
theorem C2_counterexample :
    (∀ i, oWriteFail.viWrite i < 0) ∧
      (waitForOperationComplete oWriteFail 22 1 World.init).1 = .ret 0 := by
  refine ⟨fun _ => (by decide : (-1 : Int) < 0), ?_⟩
  rw [waitForOperationComplete_ret oWriteFail 22 0 1 World.init
    (by intro j hj; omega) (by decide) (by decide)]
  rfl

/-- C2 (amended): when every read reports a negative status, whatever the writes report,
`waitForOperationComplete` never returns: for every `n` it makes `n` attempts (`n` queries,
`n` reads) and is still in its loop. -/
theorem C2_read_errors_never_return (o : Oracle) (instr : Nat) (w : World)
    (hr : ∀ i, (o.viRead i).1 < 0) (n : Nat) :
    (waitForOperationComplete o instr n w).1 = .spin ∧
      (waitForOperationComplete o instr n w).2.nWrite = w.nWrite + n ∧
      (waitForOperationComplete o instr n w).2.nRead = w.nRead + n := by
  have hno : ∀ j, j < n → ¬ Done o (w.nRead + j) := by
    intro j _ hd
    exact absurd hd.1 (not_le.mpr (hr _))
  rw [waitForOperationComplete_spin o instr n w hno]
  exact ⟨rfl, rfl, rfl⟩

/-- Witness of C2 (amended): under `oReadFail` the loop is still running after 5 attempts. -/
theorem C2_read_errors_never_return_witness :
    (∀ i, (oReadFail.viRead i).1 < 0) ∧
      (waitForOperationComplete oReadFail 22 5 World.init).1 = .spin :=
  ⟨fun _ => (by decide : (-1 : Int) < 0),
    (C2_read_errors_never_return oReadFail 22 World.init
      (fun _ => (by decide : (-1 : Int) < 0)) 5).1⟩

/-! ## C8, C9: accounting of the poll and the status it returns -/

theorem count_pattern (k : Nat) :
    ((List.replicate k [Act.query cmdOpc, Act.read, Act.sleep 1000]).flatten
        ++ [Act.query cmdOpc, Act.read]).count Act.read = k + 1 ∧
    ((List.replicate k [Act.query cmdOpc, Act.read, Act.sleep 1000]).flatten
        ++ [Act.query cmdOpc, Act.read]).count (Act.sleep 1000) = k := by
  induction k with
  | zero => decide
  | succ k ih =>
    obtain ⟨h1, h2⟩ := ih
    simp only [List.replicate_succ, List.flatten_cons, List.cons_append, List.nil_append]
    constructor
    · rw [List.count_cons_of_ne (by decide), List.count_cons_self,
        List.count_cons_of_ne (by decide), h1]
    · rw [List.count_cons_of_ne (by decide), List.count_cons_of_ne (by decide),
        List.count_cons_self, h2]

/-- C8: when attempt `k + 1` is the first that ends the loop, the events
`waitForOperationComplete` adds to the trace consist of exactly `k + 1` writes, all of them the
query `*OPC?`; on the wire and the clock they are `k` rounds of query, read, one-second sleep
followed by a last query and read without a sleep; so there are `k + 1` reads, each right after
its own query, and `k` sleeps, one after each unsuccessful attempt. -/
theorem C8_poll_accounting (o : Oracle) (instr : Nat) (w : World) (k fuel : Nat)
    (hd : Done o (w.nRead + k)) (hno : ∀ j, j < k → ¬ Done o (w.nRead + j)) (hf : k < fuel) :
    ∃ t, (waitForOperationComplete o instr fuel w).2.trace = w.trace ++ t ∧
      writes t = List.replicate (k + 1) cmdOpc ∧
      acts t = (List.replicate k [Act.query cmdOpc, Act.read, Act.sleep 1000]).flatten
        ++ [Act.query cmdOpc, Act.read] ∧
      (acts t).count Act.read = k + 1 ∧
      (acts t).count (Act.sleep 1000) = k := by
  rw [waitForOperationComplete_ret o instr k fuel w hno hd hf]
  refine ⟨pollEvents o instr w.nWrite w.nRead k ++ cmdEvents o instr "*OPC?" (w.nWrite + k)
    ++ readEvents o instr (w.nRead + k), by simp [List.append_assoc], ?_, ?_⟩
  · simp [writes_append, writes_pollEvents, writes_cmdEvents, writes_readEvents,
      List.replicate_succ', cmdOpc]
  · have ha : acts (pollEvents o instr w.nWrite w.nRead k
        ++ cmdEvents o instr "*OPC?" (w.nWrite + k) ++ readEvents o instr (w.nRead + k)) =
        (List.replicate k [Act.query cmdOpc, Act.read, Act.sleep 1000]).flatten
          ++ [Act.query cmdOpc, Act.read] := by
      simp [acts_append, acts_pollEvents, acts_cmdEvents, acts_readEvents, cmdOpc]
    rw [ha]
    exact ⟨rfl, (count_pattern k).1, (count_pattern k).2⟩

/-- Witness of C8: under `oLate` the second attempt ends the loop after one sleep. -/
theorem C8_poll_accounting_witness :
    ∃ t, (waitForOperationComplete oLate 22 3 World.init).2.trace = World.init.trace ++ t ∧
      writes t = List.replicate 2 cmdOpc ∧
      acts t = (List.replicate 1 [Act.query cmdOpc, Act.read, Act.sleep 1000]).flatten
        ++ [Act.query cmdOpc, Act.read] ∧
      (acts t).count Act.read = 2 ∧
      (acts t).count (Act.sleep 1000) = 1 :=
  C8_poll_accounting oLate 22 World.init 1 3 (by decide)
    (by intro j hj; interval_cases j; decide) (by decide)

/-- C9: (1) whenever `waitForOperationComplete` returns a status, that status is not negative,
at least one read was made, the status is that of the last read made, and the response text of
that read contains `+1`; (2) a read that reports a negative status, whatever bytes it delivers,
is never the one at which the function returns; (3) when the first read succeeds with `+1` in
its text, the function returns at the first attempt although the write of the query failed. -/
theorem C9_returned_status (o : Oracle) (instr : Nat) (w : World) :
    (∀ fuel s, (waitForOperationComplete o instr fuel w).1 = .ret s →
      0 ≤ s ∧ w.nRead < (waitForOperationComplete o instr fuel w).2.nRead ∧
      s = (o.viRead ((waitForOperationComplete o instr fuel w).2.nRead - 1)).1 ∧
      bytes "+1" <:+: responseText o ((waitForOperationComplete o instr fuel w).2.nRead - 1)) ∧
    (∀ j, (o.viRead (w.nRead + j)).1 < 0 → ∀ fuel s,
      (waitForOperationComplete o instr fuel w).1 = .ret s →
      (waitForOperationComplete o instr fuel w).2.nRead ≠ w.nRead + j + 1) ∧
    (o.viWrite w.nWrite < 0 → Done o w.nRead → ∀ fuel,
      (waitForOperationComplete o instr (fuel + 1) w).1 = .ret (o.viRead w.nRead).1) := by
  refine ⟨?_, ?_, ?_⟩
  · intro fuel s hs
    rcases poll_cases o w.nRead fuel with ⟨k, hk, hd, hno⟩ | hno
    · rw [waitForOperationComplete_ret o instr k fuel w hno hd hk] at hs ⊢
      have hs' : (o.viRead (w.nRead + k)).1 = s := by simpa using hs
      subst hs'
      simp only [Nat.add_sub_cancel]
      exact ⟨hd.1, by omega, trivial, hd.2⟩
    · rw [waitForOperationComplete_spin o instr fuel w hno] at hs
      simp at hs
  · intro j hj fuel s hs
    rcases poll_cases o w.nRead fuel with ⟨k, hk, hd, hno⟩ | hno
    · rw [waitForOperationComplete_ret o instr k fuel w hno hd hk]
      intro heq
      have hkj : k = j := by simpa using heq
      subst hkj
      exact absurd hd.1 (not_le.mpr hj)
    · rw [waitForOperationComplete_spin o instr fuel w hno] at hs
      simp at hs
  · intro _ hd fuel
    rw [waitForOperationComplete_ret o instr 0 (fuel + 1) w (by intro j hj; omega)
      (by simpa using hd) (by omega)]
    rfl

/-- Witness of C9: under `oWriteFail` the query cannot be written, the first read succeeds
with `+1`, and the function returns its status 0. -/
theorem C9_returned_status_witness :
    (waitForOperationComplete oWriteFail 22 1 World.init).1 = .ret 0 ∧
      (0 : Int) ≤ 0 :=
  ⟨(C9_returned_status oWriteFail 22 World.init).2.2 (by decide) (by decide) 0,
    ((C9_returned_status oWriteFail 22 World.init).1 1 0
      ((C9_returned_status oWriteFail 22 World.init).2.2 (by decide) (by decide) 0)).1⟩

/-! ## C6: `readResponse` -/

/-- C6 (as stated, refuted for the resulting string): under `oNul` the read delivers the three
bytes `+`, zero, `1` into a 51-byte array; the terminator goes to index 3, inside the array, but
the string the array then holds is the single byte `+`, not the three bytes read. -/
theorem C6_counterexample :
    ∃ r, (readResponse oNul 22 (List.replicate 51 7) 51 World.init).1 = some (0, r) ∧
      delivered oNul 0 = [43, 0, 49] ∧ r[3]? = some 0 ∧ cstr r = [43] ∧
      cstr r ≠ delivered oNul 0 :=
  ⟨_, rfl, rfl, rfl, rfl, by decide⟩

theorem cstr_of_no_zero (data : List Nat) (h : ∀ b ∈ data, b ≠ 0) : cstr data = data := by
  unfold cstr
  rw [List.takeWhile_eq_self_iff]
  intro b hb
  simpa using h b hb

/-- C6 (amended): `readResponse` flushes the read buffer and requests exactly 50 bytes whatever
its `bufferSize` argument is; it returns the status of the read unchanged, on success and on
failure alike; the store of the terminator is inside the array exactly when the number `n` of
bytes reported is below the size of the array, which is so for every array of at least 51
bytes; the array then holds the bytes read, a zero byte at index `n`, and its old content
behind it; the resulting string is the bytes read up to their first zero byte, hence exactly
the bytes read when none of them is zero. -/
theorem C6_readResponse (o : Oracle) (instr : Nat) (response : List Nat) (bufferSize : Nat)
    (w : World) :
    (readResponse o instr response bufferSize w).2.trace =
        w.trace ++ [.viFlush instr VI_READ_BUF, .viRead instr 50]
          ++ descEvents instr (o.viRead w.nRead).1 ∧
      (∀ b, readResponse o instr response b w = readResponse o instr response bufferSize w) ∧
      (response.length ≤ (delivered o w.nRead).length →
        (readResponse o instr response bufferSize w).1 = none) ∧
      ((delivered o w.nRead).length < response.length →
        (readResponse o instr response bufferSize w).1 =
          some ((o.viRead w.nRead).1, delivered o w.nRead
            ++ 0 :: response.drop ((delivered o w.nRead).length + 1)) ∧
        cstr (delivered o w.nRead ++ 0 :: response.drop ((delivered o w.nRead).length + 1)) =
          cstr (delivered o w.nRead) ∧
        ((∀ b ∈ delivered o w.nRead, b ≠ 0) →
          cstr (delivered o w.nRead ++ 0 :: response.drop ((delivered o w.nRead).length + 1)) =
            delivered o w.nRead)) ∧
      (51 ≤ response.length → (delivered o w.nRead).length < response.length) := by
  refine ⟨?_, ?_, ?_, ?_, ?_⟩
  · rw [readResponse_world]
    simp [readEvents]
  · intro b
    apply Prod.ext
    · rw [readResponse_value, readResponse_value]
    · rw [readResponse_world, readResponse_world]
  · intro h
    rw [readResponse_value, if_neg (by omega)]
  · intro h
    refine ⟨?_, cstr_append_zero _ _, ?_⟩
    · rw [readResponse_value, if_pos h, stored_eq _ _ h]
    · intro hz
      rw [cstr_append_zero, cstr_of_no_zero _ hz]
  · intro h
    exact lt_of_le_of_lt (length_delivered o w.nRead) h

/-- Witness of C6 (amended): under `oGood` a read into a 51-byte array stores the four bytes
of the reply and the terminator, and the resulting string is the reply. -/
theorem C6_readResponse_witness :
    (readResponse oGood 22 (List.replicate 51 7) 2048 World.init).1 =
        some (0, bytes "+1\n" ++ 0 :: List.replicate 47 7) ∧
      cstr (bytes "+1\n" ++ 0 :: List.replicate 47 7) = bytes "+1\n" :=
  ⟨((C6_readResponse oGood 22 (List.replicate 51 7) 2048 World.init).2.2.2.1 (by decide)).1,
    ((C6_readResponse oGood 22 (List.replicate 51 7) 2048 World.init).2.2.2.1 (by decide)).2.2
      (by decide)⟩

/-! ## The commands of the two programs -/

namespace CSA_Single_Scan

theorem writes_setupTrace (o : Oracle) : writes (setupTrace o) = commandsBefore := by
  simp only [setupTrace, configTrace, writes_append, writes_cmdSleep, writes_attrEvents]
  rfl

theorem csa_writes_fullTrace (o : Oracle) (k : Nat) : writes (fullTrace o k) = commands (k + 1) := by
  simp only [fullTrace, finishTrace, writes_append, writes_setupTrace, writes_pollEvents,
    writes_cmdEvents, writes_readEvents, writes_cmdSleep, writes_queryEvents]
  simp [commands, commandsAfter, readBack, List.replicate_succ', cmdOpc, writes]

theorem csa_writes_mem (o : Oracle) (fuel : Nat) (c : String)
    (hc : c ∈ writes (main o fuel).2.trace) : c ∈ commandsBefore ++ cmdOpc :: commandsAfter := by
  rcases lt_or_le o.viOpenDefaultRM.1 0 with h | h
  · rw [csa_rm_failed o fuel h] at hc
    simp [writes] at hc
  · rcases lt_or_le o.viOpen.1 0 with h' | h'
    · rw [csa_open_failed o fuel h h'] at hc
      simp [writes] at hc
    · rcases poll_cases o 0 fuel with ⟨k, hk, hd, hno⟩ | hno
      · rw [csa_ret o k fuel h h' (by simpa using hno) (by simpa using hd) hk] at hc
        simp only [csa_writes_fullTrace, commands, List.mem_append, List.mem_replicate] at hc
        simp only [List.mem_append, List.mem_cons]
        tauto
      · rw [csa_spin o fuel h h' (by simpa using hno)] at hc
        simp only [writes_append, writes_setupTrace, writes_pollEvents, List.mem_append,
          List.mem_replicate] at hc
        simp only [List.mem_append, List.mem_cons]
        tauto

end CSA_Single_Scan

namespace Calibration

theorem cal_writes_fullTrace (o : Oracle) : writes (fullTrace o) = commands := by
  simp only [fullTrace, bodyTrace, writes_append, writes_cmdSleep, writes_queryEvents,
    writes_attrEvents]
  rfl

theorem cal_writes_mem (o : Oracle) (c : String) (hc : c ∈ writes (main o).2.trace) :
    c ∈ commands := by
  rcases lt_or_le o.viOpenDefaultRM.1 0 with h | h
  · rw [cal_rm_failed o h] at hc
    simp [writes] at hc
  · rcases lt_or_le o.viOpen.1 0 with h' | h'
    · rw [cal_open_failed o h h'] at hc
      simp [writes] at hc
    · rw [cal_ret o h h'] at hc
      simpa [cal_writes_fullTrace] using hc

end Calibration

/-! ## C3, C4: the command sequence of `main` -/

/-- C3: when both opens succeed and the poll ends at attempt `k + 1`, `main` of
`CSA_Single_Scan` returns 0 and the commands it has written are, in this order: `*RST`,
frequency start, frequency stop, sweep points, bandwidth, the calibration-archive load,
`:INITiate:CONTinuous OFF`, the trigger `:INITiate1:IMMediate`, then `k + 1` completion queries
and nothing else, then `:ABORt`, the data query and the four read-back queries.  So the commands
of the stated order are written in that order; between the trigger and `:ABORt` only completion
queries are written; no command that sets a parameter follows the trigger; and the last two
events of the run are the close of the device session and of the resource manager. -/
theorem C3_command_order (o : Oracle) (k fuel : Nat) (h : 0 ≤ o.viOpenDefaultRM.1)
    (h' : 0 ≤ o.viOpen.1) (hd : Done o k) (hno : ∀ j, j < k → ¬ Done o j) (hf : k < fuel) :
    (CSA_Single_Scan.main o fuel).1 = .ret 0 ∧
      writes (CSA_Single_Scan.main o fuel).2.trace =
        ["*RST", cmdFreqStart, cmdFreqStop, cmdPoints, cmdBandwidth, cmdLoad, cmdContOff,
            cmdTrigger] ++ List.replicate (k + 1) cmdOpc ++ cmdAbort :: cmdData :: readBack ∧
      List.Sublist
        ([cmdFreqStart, cmdFreqStop, cmdPoints, cmdBandwidth, cmdLoad, cmdTrigger]
          ++ List.replicate (k + 1) cmdOpc ++ cmdAbort :: cmdData :: readBack)
        (writes (CSA_Single_Scan.main o fuel).2.trace) ∧
      ∃ t, (CSA_Single_Scan.main o fuel).2.trace =
          t ++ [.viClose o.viOpen.2, .viClose o.viOpenDefaultRM.2] ∧
        writes t = writes (CSA_Single_Scan.main o fuel).2.trace := by
  rw [CSA_Single_Scan.csa_ret o k fuel h h' hno hd hf]
  refine ⟨rfl, ?_, ?_, ?_⟩
  · simp only [CSA_Single_Scan.csa_writes_fullTrace]
    rfl
  · simp only [CSA_Single_Scan.csa_writes_fullTrace, CSA_Single_Scan.commands,
      CSA_Single_Scan.commandsBefore, CSA_Single_Scan.commandsAfter]
    refine List.Sublist.append (List.Sublist.append ?_ (List.Sublist.refl _))
      (List.Sublist.refl _)
    decide
  · refine ⟨_, rfl, ?_⟩
    simp [writes_append, writes]

/-- Witness of C3: under `oLate` the poll ends at its second attempt. -/
theorem C3_command_order_witness :
    writes (CSA_Single_Scan.main oLate 3).2.trace =
      ["*RST", cmdFreqStart, cmdFreqStop, cmdPoints, cmdBandwidth, cmdLoad, cmdContOff,
          cmdTrigger] ++ List.replicate 2 cmdOpc ++ cmdAbort :: cmdData :: readBack :=
  (C3_command_order oLate 1 3 (by decide) (by decide) (by decide)
    (by intro j hj; interval_cases j; decide) (by decide)).2.1

/-- C4 (as stated, refuted): a negative status of `viOpenDefaultRM` is fatal: under `oNoRM`
`main` returns -1 and writes no command, while the failure-free run under `oGood` returns 0 and
writes fifteen commands; a negative status of `viOpen` is fatal too (`oNoDevice`).  Moreover a
failed read in the poll changes the commands written: under `oLate` the run returns 0 like the
failure-free run but writes one completion query more. -/
theorem C4_counterexample :
    (CSA_Single_Scan.main oNoRM 3).1 = .ret (-1) ∧
      writes (CSA_Single_Scan.main oNoRM 3).2.trace = [] ∧
      (Calibration.main oNoDevice).1 = .ret (-1) ∧
      writes (Calibration.main oNoDevice).2.trace = [] ∧
      (CSA_Single_Scan.main oGood 3).1 = .ret 0 ∧
      (writes (CSA_Single_Scan.main oGood 3).2.trace).length = 15 ∧
      (CSA_Single_Scan.main oLate 3).1 = .ret 0 ∧
      (writes (CSA_Single_Scan.main oLate 3).2.trace).length = 16 := by
  rw [CSA_Single_Scan.csa_rm_failed oNoRM 3 (by decide),
    Calibration.cal_open_failed oNoDevice (by decide) (by decide),
    CSA_Single_Scan.csa_ret oGood 0 3 (by decide) (by decide) (by intro j hj; omega)
      (by decide) (by decide),
    CSA_Single_Scan.csa_ret oLate 1 3 (by decide) (by decide)
      (by intro j hj; interval_cases j; decide) (by decide) (by decide)]
  refine ⟨rfl, rfl, rfl, rfl, rfl, ?_, rfl, ?_⟩
  · rw [CSA_Single_Scan.csa_writes_fullTrace]
    rfl
  · rw [CSA_Single_Scan.csa_writes_fullTrace]
    rfl

/-- C4 (amended): no I/O failure after the two opens is fatal.  When `viOpenDefaultRM` and
`viOpen` report a non-negative status then, whatever every other library call reports,
`main` of `Calibration` returns 0 having written its nine fixed commands, and `main` of
`CSA_Single_Scan`, when its poll ends at attempt `k + 1`, returns 0 having written its fixed
commands with exactly `k + 1` completion queries.  When one of the two opens reports a negative
status, both programs return -1 and write no command. -/
theorem C4_failures_after_open_ignored (o : Oracle) :
    (0 ≤ o.viOpenDefaultRM.1 → 0 ≤ o.viOpen.1 →
      ((Calibration.main o).1 = .ret 0 ∧
        writes (Calibration.main o).2.trace = Calibration.commands) ∧
      (∀ k fuel, Done o k → (∀ j, j < k → ¬ Done o j) → k < fuel →
        (CSA_Single_Scan.main o fuel).1 = .ret 0 ∧
        writes (CSA_Single_Scan.main o fuel).2.trace = CSA_Single_Scan.commands (k + 1))) ∧
    (o.viOpenDefaultRM.1 < 0 ∨ o.viOpen.1 < 0 →
      ((Calibration.main o).1 = .ret (-1) ∧ writes (Calibration.main o).2.trace = []) ∧
      (∀ fuel, (CSA_Single_Scan.main o fuel).1 = .ret (-1) ∧
        writes (CSA_Single_Scan.main o fuel).2.trace = [])) := by
  constructor
  · intro h h'
    refine ⟨?_, ?_⟩
    · rw [Calibration.cal_ret o h h']
      exact ⟨rfl, Calibration.cal_writes_fullTrace o⟩
    · intro k fuel hd hno hf
      rw [CSA_Single_Scan.csa_ret o k fuel h h' hno hd hf]
      exact ⟨rfl, CSA_Single_Scan.csa_writes_fullTrace o k⟩
  · intro hfail
    rcases lt_or_le o.viOpenDefaultRM.1 0 with h | h
    · refine ⟨?_, fun fuel => ?_⟩
      · rw [Calibration.cal_rm_failed o h]
        exact ⟨rfl, rfl⟩
      · rw [CSA_Single_Scan.csa_rm_failed o fuel h]
        exact ⟨rfl, rfl⟩
    · have h' : o.viOpen.1 < 0 := by
        rcases hfail with h1 | h1
        · exact absurd h (not_le.mpr h1)
        · exact h1
      refine ⟨?_, fun fuel => ?_⟩
      · rw [Calibration.cal_open_failed o h h']
        exact ⟨rfl, rfl⟩
      · rw [CSA_Single_Scan.csa_open_failed o fuel h h']
        exact ⟨rfl, rfl⟩

/-- Witness of C4 (amended): under `oWriteFail` every write fails and both programs still
return 0; under `oNoDevice` both return -1. -/
theorem C4_failures_after_open_ignored_witness :
    ((Calibration.main oWriteFail).1 = .ret 0 ∧
        writes (Calibration.main oWriteFail).2.trace = Calibration.commands) ∧
      ((CSA_Single_Scan.main oWriteFail 1).1 = .ret 0 ∧
        writes (CSA_Single_Scan.main oWriteFail 1).2.trace = CSA_Single_Scan.commands 1) ∧
      (Calibration.main oNoDevice).1 = .ret (-1) :=
  ⟨((C4_failures_after_open_ignored oWriteFail).1 (by decide) (by decide)).1,
    ((C4_failures_after_open_ignored oWriteFail).1 (by decide) (by decide)).2 0 1 (by decide)
      (by intro j hj; omega) (by decide),
    (((C4_failures_after_open_ignored oNoDevice).2 (Or.inr (by decide))).1).1⟩

/-! ## C5: the life cycle of the two handles -/

theorem sessionUse_descEvents (vi : Nat) (st : Int) :
    ∀ e ∈ descEvents vi st, sessionUse vi e = true := by
  unfold descEvents
  split_ifs <;> simp [sessionUse]

theorem sessionUse_cmdEvents (o : Oracle) (vi : Nat) (cmd : String) (iW : Nat) :
    ∀ e ∈ cmdEvents o vi cmd iW, sessionUse vi e = true := by
  intro e he
  simp only [cmdEvents, List.mem_cons] at he
  rcases he with rfl | he
  · simp [sessionUse]
  · exact sessionUse_descEvents _ _ e he

theorem sessionUse_readEvents (o : Oracle) (vi : Nat) (iR : Nat) :
    ∀ e ∈ readEvents o vi iR, sessionUse vi e = true := by
  intro e he
  simp only [readEvents, List.mem_append, List.mem_cons, List.mem_singleton,
    List.not_mem_nil, or_false] at he
  rcases he with (rfl | rfl) | he
  · simp [sessionUse]
  · simp [sessionUse]
  · exact sessionUse_descEvents _ _ e he

theorem sessionUse_cmdSleep (o : Oracle) (vi : Nat) (cmd : String) (iW : Nat) :
    ∀ e ∈ cmdSleep o vi cmd iW, sessionUse vi e = true := by
  intro e he
  simp only [cmdSleep, List.mem_append, List.mem_singleton] at he
  rcases he with he | rfl
  · exact sessionUse_cmdEvents _ _ _ _ e he
  · rfl

theorem sessionUse_queryEvents (o : Oracle) (vi : Nat) (cmd : String) (iW iR : Nat) :
    ∀ e ∈ queryEvents o vi cmd iW iR, sessionUse vi e = true := by
  intro e he
  simp only [queryEvents, List.mem_append, List.mem_singleton] at he
  rcases he with (he | rfl) | he
  · exact sessionUse_cmdEvents _ _ _ _ e he
  · rfl
  · exact sessionUse_readEvents _ _ _ e he

theorem sessionUse_attrEvents (vi : Nat) : ∀ e ∈ attrEvents vi, sessionUse vi e = true := by
  intro e he
  simp only [attrEvents, List.mem_cons, List.mem_singleton, List.not_mem_nil, or_false] at he
  rcases he with rfl | rfl | rfl <;> simp [sessionUse]

theorem sessionUse_pollEvents (o : Oracle) (vi : Nat) :
    ∀ (k iW iR : Nat), ∀ e ∈ pollEvents o vi iW iR k, sessionUse vi e = true := by
  intro k
  induction k with
  | zero => intro _ _ e he; simp [pollEvents] at he
  | succ k ih =>
    intro iW iR e he
    simp only [pollEvents, List.mem_append, List.mem_singleton] at he
    rcases he with ((he | he) | rfl) | he
    · exact sessionUse_cmdEvents _ _ _ _ e he
    · exact sessionUse_readEvents _ _ _ e he
    · rfl
    · exact ih _ _ e he

theorem Calibration.cal_lifecycle (o : Oracle) : Lifecycle o (Calibration.main o).2.trace := by
  refine ⟨fun h => ?_, fun h h' => ?_, fun h h' => ?_⟩
  · rw [Calibration.cal_rm_failed o h]
  · rw [Calibration.cal_open_failed o h h']
  · rw [Calibration.cal_ret o h h']
    refine ⟨Calibration.bodyTrace o, by simp [Calibration.fullTrace], ?_⟩
    intro e he
    simp only [Calibration.bodyTrace, List.mem_append] at he
    rcases he with ((((((((he | he) | he) | he) | he) | he) | he) | he) | he) | he
    · exact sessionUse_attrEvents _ e he
    all_goals first
      | exact sessionUse_cmdSleep _ _ _ _ e he
      | exact sessionUse_queryEvents _ _ _ _ _ e he

theorem CSA_Single_Scan.csa_lifecycle (o : Oracle) (fuel : Nat) (c : Int)
    (hret : (CSA_Single_Scan.main o fuel).1 = .ret c) :
    Lifecycle o (CSA_Single_Scan.main o fuel).2.trace := by
  refine ⟨fun h => ?_, fun h h' => ?_, fun h h' => ?_⟩
  · rw [CSA_Single_Scan.csa_rm_failed o fuel h]
  · rw [CSA_Single_Scan.csa_open_failed o fuel h h']
  · rcases poll_cases o 0 fuel with ⟨k, hk, hd, hno⟩ | hno
    · rw [CSA_Single_Scan.csa_ret o k fuel h h' (by simpa using hno) (by simpa using hd) hk]
      refine ⟨CSA_Single_Scan.configTrace o ++ pollEvents o o.viOpen.2 8 0 k
        ++ cmdEvents o o.viOpen.2 "*OPC?" (8 + k) ++ readEvents o o.viOpen.2 k
        ++ CSA_Single_Scan.finishTrace o k,
        by simp [CSA_Single_Scan.fullTrace, CSA_Single_Scan.setupTrace], ?_⟩
      intro e he
      simp only [List.mem_append] at he
      rcases he with (((he | he) | he) | he) | he
      · simp only [CSA_Single_Scan.configTrace, List.mem_append] at he
        rcases he with (((((((he | he) | he) | he) | he) | he) | he) | he) | he
        · exact sessionUse_attrEvents _ e he
        all_goals exact sessionUse_cmdSleep _ _ _ _ e he
      · exact sessionUse_pollEvents _ _ _ _ _ e he
      · exact sessionUse_cmdEvents _ _ _ _ e he
      · exact sessionUse_readEvents _ _ _ e he
      · simp only [CSA_Single_Scan.finishTrace, List.mem_append] at he
        rcases he with ((((he | he) | he) | he) | he) | he
        · exact sessionUse_cmdSleep _ _ _ _ e he
        all_goals exact sessionUse_queryEvents _ _ _ _ _ e he
    · rw [CSA_Single_Scan.csa_spin o fuel h h' (by simpa using hno)] at hret
      simp at hret

theorem closes_of_sessionUse (vi : Nat) :
    ∀ (t : List Event), (∀ e ∈ t, sessionUse vi e = true) → closes t = [] ∧ deviceOpens t = 0 := by
  intro t
  induction t with
  | nil => intro _; exact ⟨rfl, rfl⟩
  | cons e t ih =>
    intro h
    have ht := ih (fun x hx => h x (List.mem_cons_of_mem _ hx))
    have he := h e (List.mem_cons_self _ _)
    cases e <;> simp_all [closes, deviceOpens, sessionUse]

theorem deviceOpens_append (s t : List Event) :
    deviceOpens (s ++ t) = deviceOpens s + deviceOpens t := by
  induction s with
  | nil => simp [deviceOpens]
  | cons e s ih =>
    cases e <;> simp [deviceOpens, ih]
    omega

theorem closes_of_lifecycle (o : Oracle) (t : List Event) (h : Lifecycle o t) :
    closes t = (opened o).reverse ∧ deviceOpens t ≤ 1 := by
  obtain ⟨h1, h2, h3⟩ := h
  rcases lt_or_le o.viOpenDefaultRM.1 0 with hr | hr
  · rw [h1 hr]
    simp [opened, hr, closes, deviceOpens]
  · rcases lt_or_le o.viOpen.1 0 with hd | hd
    · rw [h2 hr hd]
      simp [opened, not_lt.mpr hr, hd, closes, deviceOpens]
    · obtain ⟨body, hb, hu⟩ := h3 hr hd
      obtain ⟨hc, hn⟩ := closes_of_sessionUse _ body hu
      rw [hb]
      simp [opened, not_lt.mpr hr, not_lt.mpr hd, closes, closes_append, hc, deviceOpens,
        deviceOpens_append, hn]

/-- C5: every run of `main` of `Calibration` terminates, and every terminating run of either
`main` follows the life cycle `Lifecycle`: if the resource manager does not open, no other call
is made; if it opens and the device does not, the only further call closes the resource
manager; if both open, all further events up to the last two are uses of the device session
(so they contain every write and every read, no open and no close), and the last two close the
device session and then the resource manager.  Hence `viOpen` is called at most once, the
handles closed are exactly the handles successfully opened, each once, in reverse order, and no
command is written or response read outside the life of the device session. -/
theorem C5_session_lifecycle (o : Oracle) :
    ((∃ c, (Calibration.main o).1 = .ret c) ∧
      Lifecycle o (Calibration.main o).2.trace ∧
      closes (Calibration.main o).2.trace = (opened o).reverse ∧
      deviceOpens (Calibration.main o).2.trace ≤ 1) ∧
    ∀ fuel c, (CSA_Single_Scan.main o fuel).1 = .ret c →
      Lifecycle o (CSA_Single_Scan.main o fuel).2.trace ∧
      closes (CSA_Single_Scan.main o fuel).2.trace = (opened o).reverse ∧
      deviceOpens (CSA_Single_Scan.main o fuel).2.trace ≤ 1 := by
  refine ⟨⟨?_, Calibration.cal_lifecycle o, closes_of_lifecycle o _ (Calibration.cal_lifecycle o)⟩,
    fun fuel c hc => ⟨CSA_Single_Scan.csa_lifecycle o fuel c hc,
      closes_of_lifecycle o _ (CSA_Single_Scan.csa_lifecycle o fuel c hc)⟩⟩
  rcases lt_or_le o.viOpenDefaultRM.1 0 with h | h
  · exact ⟨-1, by rw [Calibration.cal_rm_failed o h]⟩
  · rcases lt_or_le o.viOpen.1 0 with h' | h'
    · exact ⟨-1, by rw [Calibration.cal_open_failed o h h']⟩
    · exact ⟨0, by rw [Calibration.cal_ret o h h']⟩

/-- Witness of C5: the run of `CSA_Single_Scan` under `oGood`, whose first poll succeeds,
terminates and closes the device session 22 and then the resource manager 11. -/
theorem C5_session_lifecycle_witness :
    closes (CSA_Single_Scan.main oGood 1).2.trace = [22, 11] :=
  ((C5_session_lifecycle oGood).2 1 0
    (by rw [CSA_Single_Scan.csa_ret oGood 0 1 (by decide) (by decide) (by intro j hj; omega)
      (by decide) (by decide)])).2.1

/-! ## C7: the two programs compared -/

/-- C7 (as stated, refuted): under `oGood` the calibration-archive load is written by both
programs, not by one of them; and once the load, the `:INITiate` commands, the completion query
and `:ABORt` are set aside, the remaining commands of the two programs differ, since only
`CSA_Single_Scan` writes `*RST` and the data query. -/
theorem C7_counterexample :
    cmdLoad ∈ writes (CSA_Single_Scan.main oGood 1).2.trace ∧
      cmdLoad ∈ writes (Calibration.main oGood).2.trace ∧
      (writes (CSA_Single_Scan.main oGood 1).2.trace).filter
          (fun c => decide (c ∉ [cmdLoad, cmdContOff, cmdTrigger, cmdOpc, cmdAbort])) ≠
        (writes (Calibration.main oGood).2.trace).filter
          (fun c => decide (c ∉ [cmdLoad, cmdContOff, cmdTrigger, cmdOpc, cmdAbort])) := by
  rw [CSA_Single_Scan.csa_ret oGood 0 1 (by decide) (by decide) (by intro j hj; omega)
      (by decide) (by decide), Calibration.cal_ret oGood (by decide) (by decide)]
  simp only [CSA_Single_Scan.csa_writes_fullTrace, Calibration.cal_writes_fullTrace]
  decide

/-- C7 (amended): the two programs are the same command-sequencing script except that
`CSA_Single_Scan` adds the reset, the trigger and abort logic and the data query.  On runs
whose opens succeed and whose poll completes: every command of `csaOnly` (`*RST`, the two
`:INITiate` commands, the completion query, `:ABORt`, the data query) is written by
`CSA_Single_Scan`; no run of `Calibration` writes any of them; the calibration-archive load is
written by both programs; and the commands of `CSA_Single_Scan` outside `csaOnly` are the
commands of `Calibration`, the same strings in the same order. -/
theorem C7_programs_compared (o : Oracle) (k fuel : Nat) (h : 0 ≤ o.viOpenDefaultRM.1)
    (h' : 0 ≤ o.viOpen.1) (hd : Done o k) (hno : ∀ j, j < k → ¬ Done o j) (hf : k < fuel) :
    (∀ c ∈ csaOnly, c ∈ writes (CSA_Single_Scan.main o fuel).2.trace) ∧
      (∀ (o' : Oracle) (c : String), c ∈ writes (Calibration.main o').2.trace → c ∉ csaOnly) ∧
      cmdLoad ∈ writes (CSA_Single_Scan.main o fuel).2.trace ∧
      cmdLoad ∈ writes (Calibration.main o).2.trace ∧
      (writes (CSA_Single_Scan.main o fuel).2.trace).filter (fun c => decide (c ∉ csaOnly)) =
        writes (Calibration.main o).2.trace := by
  rw [CSA_Single_Scan.csa_ret o k fuel h h' hno hd hf, Calibration.cal_ret o h h']
  simp only [CSA_Single_Scan.csa_writes_fullTrace, Calibration.cal_writes_fullTrace]
  refine ⟨?_, ?_, ?_, by decide, ?_⟩
  · intro c hc
    simp only [CSA_Single_Scan.commands, List.mem_append, List.mem_replicate]
    simp only [csaOnly, List.mem_cons, List.mem_singleton, List.not_mem_nil, or_false] at hc
    rcases hc with rfl | rfl | rfl | rfl | rfl | rfl
    · exact Or.inl (Or.inl (by decide))
    · exact Or.inl (Or.inl (by decide))
    · exact Or.inl (Or.inl (by decide))
    · exact Or.inl (Or.inr ⟨by omega, rfl⟩)
    · exact Or.inr (by decide)
    · exact Or.inr (by decide)
  · intro o' c hc
    have hm := Calibration.cal_writes_mem o' c hc
    simp only [Calibration.commands, readBack, List.cons_append, List.nil_append, List.mem_cons,
      List.mem_singleton, List.not_mem_nil, or_false] at hm
    rcases hm with rfl | rfl | rfl | rfl | rfl | rfl | rfl | rfl | rfl <;> decide
  · simp only [CSA_Single_Scan.commands, List.mem_append]
    exact Or.inl (Or.inl (by decide))
  · simp only [CSA_Single_Scan.commands, List.filter_append, List.filter_replicate]
    rw [if_neg (by decide)]
    decide

/-- Witness of C7 (amended): the runs under `oLate`, where the poll takes two attempts. -/
theorem C7_programs_compared_witness :
    (writes (CSA_Single_Scan.main oLate 2).2.trace).filter (fun c => decide (c ∉ csaOnly)) =
      writes (Calibration.main oLate).2.trace :=
  (C7_programs_compared oLate 1 2 (by decide) (by decide) (by decide)
    (by intro j hj; interval_cases j; decide) (by decide)).2.2.2.2

/-! ## C10: line termination -/

/-- C10: in every run of `CSA_Single_Scan` (any oracle, any number of poll attempts, finished
or not) a command written does not end in a newline exactly when it is `*RST`, the
calibration-archive load or the completion query `*OPC?`; every other command written ends in a
newline and contains exactly one newline.  In every run of `Calibration` the same holds with
the load as the only command without a trailing newline. -/
theorem C10_line_termination (o : Oracle) (fuel : Nat) (c : String) :
    (c ∈ writes (CSA_Single_Scan.main o fuel).2.trace →
      (c ∈ ["*RST", cmdLoad, cmdOpc] → c.toList.getLast? ≠ some '\n') ∧
      (c ∉ ["*RST", cmdLoad, cmdOpc] →
        c.toList.getLast? = some '\n' ∧ c.toList.count '\n' = 1)) ∧
    (c ∈ writes (Calibration.main o).2.trace →
      (c = cmdLoad → c.toList.getLast? ≠ some '\n') ∧
      (c ≠ cmdLoad → c.toList.getLast? = some '\n' ∧ c.toList.count '\n' = 1)) := by
  constructor
  · intro hc
    have hm := CSA_Single_Scan.csa_writes_mem o fuel c hc
    simp only [CSA_Single_Scan.commandsBefore, CSA_Single_Scan.commandsAfter, readBack,
      List.cons_append, List.nil_append, List.mem_cons, List.mem_singleton, List.not_mem_nil,
      or_false] at hm
    rcases hm with rfl | rfl | rfl | rfl | rfl | rfl | rfl | rfl | rfl | rfl | rfl | rfl | rfl
      | rfl | rfl <;> decide
  · intro hc
    have hm := Calibration.cal_writes_mem o c hc
    simp only [Calibration.commands, readBack, List.cons_append, List.nil_append, List.mem_cons,
      List.mem_singleton, List.not_mem_nil, or_false] at hm
    rcases hm with rfl | rfl | rfl | rfl | rfl | rfl | rfl | rfl | rfl <;> decide

/-- Witness of C10: the load command, written by `Calibration` under `oGood`, has no trailing
newline. -/
theorem C10_line_termination_witness :
    cmdLoad.toList.getLast? ≠ some '\n' :=
  ((C10_line_termination oGood 1 cmdLoad).2
    (by
      rw [Calibration.cal_ret oGood (by decide) (by decide), Calibration.cal_writes_fullTrace]
      decide)).1 rfl
